import Mathlib

/-!
Shallow embedding of the point-cloud map engine in `js/main.js`:
the dot field and its lift state, the hover id/cooldown machine, the
hover influence propagation, the lift-easing tick, the nearest-dot
binding pass, the procedural marker-geometry height computations, the
sequential connection-arc sampler and the manual connection-pair
resolution.  Numeric state that the program manipulates with plain
arithmetic is modelled over an arbitrary linear ordered field (so the
rationals give executable instances); the parts that use `Math.exp`,
`Math.sqrt` and `Math.sin` are modelled over the reals.
-/

namespace Ptv

/-- One record of `dotPositions` (created in `buildDotsFromFile`):
grid coordinates, current lift, decaying target lift, and the
hotspot back-reference written by the bind pass. -/
structure Dot (K : Type) where
  x : K
  y : K
  lift : K
  targetLift : K
  isHotspot : Bool
  hotspotIndex : Int
  deriving Repr, DecidableEq

/-- The dot record pushed for each point in `buildDotsFromFile`:
`{ x, y, lift: 0, targetLift: 0, isHotspot: false, hotspotIndex: -1 }`. -/
def initialDotRecord {K : Type} [LinearOrderedField K] (x y : K) : Dot K :=
  { x := x, y := y, lift := 0, targetLift := 0, isHotspot := false, hotspotIndex := -1 }

/-- The mutable globals read and written by `handleHover` and
`smoothLiftUpdate`: the dot list, the per-instance transform
positions of the dot meshes (`dotMesh` and `hoverProxyMesh` receive
identical matrices, so one list stands for both), the quiescence flag
`liftActive`, the hover hysteresis id `hoveredInstanceId` and its
`hoverCooldown` counter. -/
structure EngineState (K : Type) where
  dots : List (Dot K)
  matrices : List (K × K × K)
  liftActive : Bool
  hoveredInstanceId : Option Nat
  hoverCooldown : Nat
  deriving Repr, DecidableEq

/-- The hover id and cooldown update at the top of `handleHover`
(main.js lines 1249-1260): a hit on a new instance id stores the id and
arms the cooldown with `CONFIG.interaction.hoverCooldownFrames`; a miss
clears the id only when the cooldown has reached zero; in either case
the cooldown then decrements, floored at zero
(`hoverCooldown = Math.max(hoverCooldown - 1, 0)`). -/
def handleHoverIdStep {K : Type} (frames : Nat) (hit : Option Nat)
    (s : EngineState K) : EngineState K :=
  let s1 :=
    match hit with
    | some id =>
        if s.hoveredInstanceId ≠ some id then
          { s with hoveredInstanceId := some id, hoverCooldown := frames }
        else s
    | none =>
        if s.hoverCooldown = 0 then { s with hoveredInstanceId := none } else s
  { s1 with hoverCooldown := s1.hoverCooldown - 1 }

/-- Fold `handleHoverIdStep` over a per-tick sequence of raycast
results (the `hits[0].instanceId` of each tick, `none` when the ray
missed). -/
def runHoverIdSteps {K : Type} (frames : Nat) (hits : List (Option Nat))
    (s : EngineState K) : EngineState K :=
  hits.foldl (fun st h => handleHoverIdStep frames h st) s

/-- The configuration fields consumed by `smoothLiftUpdate` and the
dot transform computation: `CONFIG.hover.easing`,
`CONFIG.hover.threshold`, `CONFIG.interaction.hoverFalloff`,
`CONFIG.dots.height`, `CONFIG.dots.spacing`, `CONFIG.map.offsetX`
and `CONFIG.map.offsetY` (the dot base plane). -/
structure EngineCfg (K : Type) where
  easing : K
  threshold : K
  hoverFalloff : K
  dotHeight : K
  spacing : K
  offsetX : K
  baseY : K
  deriving Repr, DecidableEq

/-- `getMapWorldX`: grid x to world x. -/
def getMapWorldX {K : Type} [LinearOrderedField K] (cfg : EngineCfg K) (x : K) : K :=
  x * cfg.spacing + cfg.offsetX

/-- `getCylinderCenterY`: world y of a cylinder center of the given
height lifted by `lift` above the dot base plane. -/
def getCylinderCenterY {K : Type} [LinearOrderedField K] (cfg : EngineCfg K)
    (height lift : K) : K :=
  cfg.baseY + height / 2 + lift

/-- The instance transform position written for dot `p` inside
`smoothLiftUpdate`'s dirty branch: `(getMapWorldX(p.x),
getCylinderCenterY(DOT_HEIGHT, p.lift), -p.y * SPACING)`. -/
def dotWorldPos {K : Type} [LinearOrderedField K] (cfg : EngineCfg K)
    (p : Dot K) : K × K × K :=
  (getMapWorldX cfg p.x, (getCylinderCenterY cfg cfg.dotHeight p.lift, -(p.y * cfg.spacing)))

/-- The per-dot body of `smoothLiftUpdate`'s forEach: decay
`targetLift` by the falloff factor, then ease `lift` toward it when
the delta exceeds the threshold.  Returns the updated dot and the
per-dot dirty flag (whether the transform slot was rewritten). -/
def smoothLiftDotStep {K : Type} [LinearOrderedField K] (cfg : EngineCfg K)
    (p : Dot K) : Dot K × Bool :=
  let t := p.targetLift * cfg.hoverFalloff
  let delta := t - p.lift
  if cfg.threshold < |delta| then
    ({ p with targetLift := t, lift := p.lift + delta * cfg.easing }, true)
  else
    ({ p with targetLift := t }, false)

/-- `smoothLiftUpdate` (main.js lines 1392-1427): early return when the
engine is quiescent (`!liftActive && hoveredInstanceId === null`);
otherwise decay every dot's `targetLift`, ease `lift` where the delta
exceeds the threshold, rewrite the transform slots of the dirty dots,
and drop `liftActive` when nothing was dirty and no id is held.
(The `!dotMesh` guard is elided: the mesh exists once the map is
built.) -/
def smoothLiftUpdate {K : Type} [LinearOrderedField K] (cfg : EngineCfg K)
    (s : EngineState K) : EngineState K :=
  if s.liftActive = false ∧ s.hoveredInstanceId = none then s
  else
    let results := s.dots.map (smoothLiftDotStep cfg)
    let newDots := results.map Prod.fst
    let dirty := results.any Prod.snd
    let newMatrices :=
      List.zipWith (fun m (r : Dot K × Bool) => if r.2 then dotWorldPos cfg r.1 else m)
        s.matrices results
    let liftActive' :=
      if dirty = false ∧ s.hoveredInstanceId = none then false else s.liftActive
    { s with dots := newDots, matrices := newMatrices, liftActive := liftActive' }

/-- The squared planar distance computed per dot in `handleHover`:
`dx = (p.x - center.x) * SPACING`, `dy = (p.y - center.y) * SPACING`,
`d2 = dx*dx + dy*dy`. -/
def hoverPlanarDistSq (spacing : ℝ) (center p : Dot ℝ) : ℝ :=
  let dx := (p.x - center.x) * spacing
  let dy := (p.y - center.y) * spacing
  dx * dx + dy * dy

/-- The per-dot influence update in the second half of `handleHover`
(main.js lines 1262-1281), over the reals because of `Math.sqrt` and
`Math.exp`: a dot whose scaled squared planar distance from the
hovered center is strictly below `(radius * 1.4)^2` receives
`targetLift = max(targetLift, exp(-(sqrt(d2) * (1/radius))^2) * maxLift)`;
any other dot is untouched. -/
noncomputable def applyHoverInfluence (spacing radius maxLift : ℝ)
    (center p : Dot ℝ) : Dot ℝ :=
  let d2 := hoverPlanarDistSq spacing center p
  let outerRadius := radius * 1.4
  if d2 < outerRadius * outerRadius then
    let t := Real.sqrt d2 * (1 / radius)
    { p with targetLift := max p.targetLift (Real.exp (-(t * t)) * maxLift) }
  else p

/-- The influence pass of `handleHover` after the id/cooldown update:
return unchanged when no id is held; otherwise look up the center dot,
set `liftActive` and run the influence update over every dot.  (An id
out of range would make the source throw on `center.x`; raycast
instance ids are always in range, so that case is returned
unchanged.) -/
noncomputable def hoverInfluencePass (spacing radius maxLift : ℝ)
    (s : EngineState ℝ) : EngineState ℝ :=
  match s.hoveredInstanceId with
  | none => s
  | some id =>
      match s.dots[id]? with
      | none => s
      | some center =>
          { s with
            liftActive := true,
            dots := s.dots.map (applyHoverInfluence spacing radius maxLift center) }

/-- `latLonToMapXY`: geographic coordinate to grid coordinate
(defaults `mapWidth = 20`, `mapHeight = 10`). -/
def latLonToMapXY {K : Type} [LinearOrderedField K] (lat lon : K)
    (mapWidth : K := 20) (mapHeight : K := 10) : K × K :=
  ((lon / 180) * (mapWidth / 2), (lat / 90) * (mapHeight / 2))

/-- A source hotspot record as loaded from a data file and tagged with
its group type. -/
structure SourceHotspot (K : Type) where
  id : String
  lat : K
  lon : K
  type : String
  deriving Repr, DecidableEq

/-- A bound hotspot record as pushed onto `hotspotData` in
`buildDotsFromFile`. -/
structure BoundHotspot (K : Type) where
  id : String
  dotIndex : Nat
  meshType : String
  meshInstanceId : Nat
  height : K
  idleLift : K
  animationPhase : K
  deriving Repr, DecidableEq

/-- The nearest-dot scan of `buildDotsFromFile` (main.js lines
1067-1078): brute force over `dotPositions`, strict `<` on squared
planar distance so the first-encountered index wins ties.  The source
initializes `bestDist = Infinity` and `bestIndex = -1`; the running
best is `none` until the first dot is seen, and the result is `none`
exactly when the dot list is empty (the source's `bestIndex = -1`). -/
def nearestDotIndex {K : Type} [LinearOrderedField K] (dots : List (Dot K))
    (x y : K) : Option Nat :=
  let best := dots.enum.foldl
    (fun (best : Option (Nat × K)) (ip : Nat × Dot K) =>
      let dx := ip.2.x - x
      let dy := ip.2.y - y
      let d := dx * dx + dy * dy
      match best with
      | none => some (ip.1, d)
      | some (bi, bd) => if d < bd then some (ip.1, d) else some (bi, bd))
    none
  best.map Prod.fst

/-- The runtime error raised by the JavaScript engine when a property
is written on `undefined` (here: `dotPositions[-1].isHotspot`). -/
inductive JsError : Type
  | typeError
  deriving Repr, DecidableEq

/-- Write the hotspot back-reference onto the best dot:
`dotPositions[bestIndex].isHotspot = true;
dotPositions[bestIndex].hotspotIndex = hotspotData.length`. -/
def markHotspotDot {K : Type} (dots : List (Dot K)) (bestIndex : Nat)
    (hotspotIndex : Int) : List (Dot K) :=
  dots.enum.map (fun jp =>
    if jp.1 = bestIndex then
      { jp.2 with isHotspot := true, hotspotIndex := hotspotIndex }
    else jp.2)

/-- One iteration of the bind loop in `buildDotsFromFile` (main.js
lines 1064-1091): project the hotspot to grid coordinates, scan for
the nearest dot, write the back-reference and push the bound record.
With an empty dot list `bestIndex` stays `-1` and the source throws a
TypeError on `dotPositions[-1].isHotspot`, modelled as
`Except.error`.  (Grouping by `type` is elided; `slot` is the record's
index within its group, here its scan position.) -/
def bindOneHotspot {K : Type} [LinearOrderedField K] (idlePhaseStep hotspotHeight : K)
    (st : List (Dot K) × List (BoundHotspot K)) (hs : SourceHotspot K)
    (slot : Nat) : Except JsError (List (Dot K) × List (BoundHotspot K)) :=
  let xy := latLonToMapXY hs.lat hs.lon
  match nearestDotIndex st.1 xy.1 xy.2 with
  | none => .error .typeError
  | some bestIndex =>
      let record : BoundHotspot K :=
        { id := hs.id
          dotIndex := bestIndex
          meshType := hs.type
          meshInstanceId := slot
          height := hotspotHeight
          idleLift := 0
          animationPhase := ((bestIndex + slot : Nat) : K) * idlePhaseStep }
      .ok (markHotspotDot st.1 bestIndex st.2.length, st.2 ++ [record])

/-- The whole bind pass over the hotspot list: a thrown TypeError
aborts the remaining iterations (and everything after them in
`buildDotsFromFile`, notably the connection-line build), modelled by
the `Except` monad fold. -/
def bindHotspotsPass {K : Type} [LinearOrderedField K] (idlePhaseStep hotspotHeight : K)
    (dots : List (Dot K)) (hss : List (SourceHotspot K)) :
    Except JsError (List (Dot K) × List (BoundHotspot K)) :=
  hss.enum.foldlM (fun st ih => bindOneHotspot idlePhaseStep hotspotHeight st ih.2 ih.1)
    (dots, [])

/-- The dome ratio clamp of `createDomedCylinderGeometry`:
`Math.max(0.08, Math.min(domeHeightRatio, 0.7))`. -/
def clampDomeRatio (domeHeightRatio : ℚ) : ℚ :=
  max 0.08 (min domeHeightRatio 0.7)

/-- The dome height of `createDomedCylinderGeometry`:
`Math.min(topRadius * ratio, height * 0.45)`. -/
def domeHeightOf (topRadius height domeHeightRatio : ℚ) : ℚ :=
  min (topRadius * clampDomeRatio domeHeightRatio) (height * 0.45)

/-- The cylinder height of `createDomedCylinderGeometry`:
`Math.max(0.001, height - domeHeight)`. -/
def cylinderHeightOf (topRadius height domeHeightRatio : ℚ) : ℚ :=
  max 0.001 (height - domeHeightOf topRadius height domeHeightRatio)

/-- Total assembled height of the domed-cylinder marker: the tapered
cylinder body plus the partial-sphere dome stacked on its rim. -/
def domedCylinderTotalHeight (topRadius height domeHeightRatio : ℚ) : ℚ :=
  cylinderHeightOf topRadius height domeHeightRatio +
    domeHeightOf topRadius height domeHeightRatio

/-- The crystal preset fields consumed by
`createCrystalHotspotGeometry` (each `Option` models a possibly
absent JavaScript property resolved with `??`). -/
structure CrystalPreset where
  bodyHeightRatio : Option ℚ
  bodyTopScale : Option ℚ
  bodyBottomScale : Option ℚ
  deriving Repr, DecidableEq

/-- The clamped body height ratio of `createCrystalHotspotGeometry`:
`Math.max(0.35, Math.min(0.82, preset.bodyHeightRatio ?? 0.64))`. -/
def crystalBodyRatioClamped (preset : CrystalPreset) : ℚ :=
  max 0.35 (min 0.82 (preset.bodyHeightRatio.getD 0.64))

/-- `bodyHeight = Math.max(0.04, height * bodyRatio)` in
`createCrystalHotspotGeometry`. -/
def crystalBodyHeight (height : ℚ) (preset : CrystalPreset) : ℚ :=
  max 0.04 (height * crystalBodyRatioClamped preset)

/-- `tipHeight = Math.max(0.04, height - bodyHeight)` in
`createCrystalHotspotGeometry`. -/
def crystalTipHeight (height : ℚ) (preset : CrystalPreset) : ℚ :=
  max 0.04 (height - crystalBodyHeight height preset)

/-- Total assembled height of the crystal marker: body plus cone
tip. -/
def crystalTotalHeight (height : ℚ) (preset : CrystalPreset) : ℚ :=
  crystalBodyHeight height preset + crystalTipHeight height preset

/-- The beacon preset fields consumed by
`createBeaconHotspotGeometry`. -/
structure BeaconPreset where
  tier1HeightRatio : Option ℚ
  tier2HeightRatio : Option ℚ
  tier1RadiusScale : Option ℚ
  tier2RadiusScale : Option ℚ
  tipRadiusScale : Option ℚ
  deriving Repr, DecidableEq

/-- `Math.max(0.2, Math.min(0.7, preset.tier1HeightRatio ?? 0.44))`. -/
def beaconTier1RatioClamped (preset : BeaconPreset) : ℚ :=
  max 0.2 (min 0.7 (preset.tier1HeightRatio.getD 0.44))

/-- `Math.max(0.15, Math.min(0.55, preset.tier2HeightRatio ?? 0.33))`. -/
def beaconTier2RatioClamped (preset : BeaconPreset) : ℚ :=
  max 0.15 (min 0.55 (preset.tier2HeightRatio.getD 0.33))

/-- `tier1Height = Math.max(0.04, height * tier1Ratio)`. -/
def beaconTier1Height (height : ℚ) (preset : BeaconPreset) : ℚ :=
  max 0.04 (height * beaconTier1RatioClamped preset)

/-- `tier2Height = Math.max(0.04, height * tier2Ratio)`. -/
def beaconTier2Height (height : ℚ) (preset : BeaconPreset) : ℚ :=
  max 0.04 (height * beaconTier2RatioClamped preset)

/-- `tipHeight = Math.max(0.04, height - tier1Height - tier2Height)`. -/
def beaconTipHeight (height : ℚ) (preset : BeaconPreset) : ℚ :=
  max 0.04 (height - beaconTier1Height height preset - beaconTier2Height height preset)

/-- Total assembled height of the beacon marker: two frustum tiers
plus the cone tip. -/
def beaconTotalHeight (height : ℚ) (preset : BeaconPreset) : ℚ :=
  beaconTier1Height height preset + beaconTier2Height height preset +
    beaconTipHeight height preset

/-- The effective segment count of the connection-line samplers:
`Math.max(1, Math.floor(lineCfg.segments))`. -/
def segmentsOf (segmentsCfg : ℚ) : Nat :=
  (max 1 ⌊segmentsCfg⌋).toNat

/-- One leg of the sequential chain sampler in
`collectHotspotArcPoints`: `for (s = start; s <= segments; s++)` with
`t = s / segments`, linear interpolation of the endpoints and the
`sin(pi * t) * arcHeight` vertical bow. -/
noncomputable def sampleLegPoints (a b : ℝ × ℝ × ℝ) (arcHeight : ℝ)
    (segments start : Nat) : List (ℝ × ℝ × ℝ) :=
  (List.range (segments + 1 - start)).map (fun k =>
    let t : ℝ := ((start + k : Nat) : ℝ) / (segments : ℝ)
    let oneMinus := 1 - t
    (a.1 * oneMinus + b.1 * t,
      (a.2.1 * oneMinus + b.2.1 * t + Real.sin (Real.pi * t) * arcHeight,
        a.2.2 * oneMinus + b.2.2 * t)))

/-- `collectHotspotArcPoints` (main.js lines 372-400) over the world
positions of the hotspot records (`positions` stands for
`hotspotData` mapped through `getHotspotWorldPosition`): leg `i`
connects position `i` to position `i+1`; the first leg samples from
`t`-index 0, every later leg from `t`-index 1. -/
noncomputable def collectHotspotArcPoints (positions : List (ℝ × ℝ × ℝ))
    (arcHeight : ℝ) (segmentsCfg : ℚ) : List (ℝ × ℝ × ℝ) :=
  let segments := segmentsOf segmentsCfg
  (List.range (positions.length - 1)).flatMap (fun i =>
    sampleLegPoints (positions.getD i (0, (0, 0))) (positions.getD (i + 1) (0, (0, 0)))
      arcHeight segments (if i = 0 then 0 else 1))

/-- JavaScript `String.prototype.toLowerCase` on the ASCII ids used by
the hotspot data: lower-case every character. -/
def jsToLowerCase (s : String) : String :=
  String.mk (s.data.map Char.toLower)

/-- A hotspot record as seen by the id lookup (only the id matters). -/
structure HotspotId where
  id : String
  deriving Repr, DecidableEq

/-- `findHotspotIndexById` (main.js lines 455-461): a falsy id
(absent or the empty string) resolves to `-1`; otherwise the first
record whose lower-cased id equals the lower-cased needle, `-1` when
none matches. -/
def findHotspotIndexById (data : List HotspotId) (id : Option String) : Int :=
  match id with
  | none => -1
  | some s =>
      if s = "" then -1
      else
        match data.findIdx? (fun hs => jsToLowerCase hs.id = jsToLowerCase s) with
        | some i => (i : Int)
        | none => -1

/-- The base connection-line style (`CONFIG.hotspots.connectionLine`),
restricted to the per-pair overridable values. -/
structure LineStyle where
  color : ℚ
  opacity : ℚ
  arcHeight : ℚ
  segments : ℚ
  thickness : ℚ
  radialSegments : ℚ
  heightOffset : ℚ
  deriving Repr, DecidableEq

/-- A configured connection pair: endpoint ids plus optional style
overrides. -/
structure ConnectionPair where
  fromId : Option String
  toId : Option String
  color : Option ℚ
  opacity : Option ℚ
  arcHeight : Option ℚ
  segments : Option ℚ
  thickness : Option ℚ
  radialSegments : Option ℚ
  heightOffset : Option ℚ
  deriving Repr, DecidableEq

/-- The style merge in `buildHotspotPairConnections`: every listed
field takes the pair's value when present (`pair.f ?? baseCfg.f`). -/
def mergedPairStyle (base : LineStyle) (pair : ConnectionPair) : LineStyle :=
  { color := pair.color.getD base.color
    opacity := pair.opacity.getD base.opacity
    arcHeight := pair.arcHeight.getD base.arcHeight
    segments := pair.segments.getD base.segments
    thickness := pair.thickness.getD base.thickness
    radialSegments := pair.radialSegments.getD base.radialSegments
    heightOffset := pair.heightOffset.getD base.heightOffset }

/-- One entry of `hotspotPairLines`: the resolved endpoint indices and
the merged style the tube is built with. -/
structure PairLineEntry where
  fromIndex : Nat
  toIndex : Nat
  cfg : LineStyle
  deriving Repr, DecidableEq

/-- The body of the `pairs.forEach` in `buildHotspotPairConnections`
(main.js lines 479-513): resolve both endpoint ids; when either lookup
returns a negative index the pair is dropped (`return`), otherwise a
line entry is produced with the merged style. -/
def buildPairLine (data : List HotspotId) (base : LineStyle)
    (pair : ConnectionPair) : Option PairLineEntry :=
  let fromIndex := findHotspotIndexById data pair.fromId
  let toIndex := findHotspotIndexById data pair.toId
  if fromIndex < 0 ∨ toIndex < 0 then none
  else
    let entry : PairLineEntry :=
      { fromIndex := fromIndex.toNat
        toIndex := toIndex.toNat
        cfg := mergedPairStyle base pair }
    some entry

/-- One forEach step of `buildHotspotPairConnections`: push the
produced entry, if any, onto the accumulated line list. -/
def pushPairLine (data : List HotspotId) (base : LineStyle)
    (acc : List PairLineEntry) (pair : ConnectionPair) : List PairLineEntry :=
  match buildPairLine data base pair with
  | none => acc
  | some e => acc ++ [e]

/-- `buildHotspotPairConnections` over the configured pair list: the
forEach pushes each produced entry onto the accumulated list. -/
def buildHotspotPairConnections (data : List HotspotId) (base : LineStyle)
    (pairs : List ConnectionPair) : List PairLineEntry :=
  pairs.foldl (pushPairLine data base) []

/-! ## Lemmas about the hover id/cooldown machine -/

theorem handleHoverIdStep_miss_of_cooldown_ne_zero {K : Type} (frames : Nat)
    (s : EngineState K) (h : s.hoverCooldown ≠ 0) :
    handleHoverIdStep frames none s = { s with hoverCooldown := s.hoverCooldown - 1 } := by
  simp [handleHoverIdStep, h]

theorem handleHoverIdStep_miss_of_cooldown_zero {K : Type} (frames : Nat)
    (s : EngineState K) (h : s.hoverCooldown = 0) :
    handleHoverIdStep frames none s =
      { s with hoveredInstanceId := none, hoverCooldown := 0 } := by
  simp [handleHoverIdStep, h]

theorem missIter_of_le {K : Type} (frames : Nat) :
    ∀ (k : Nat) (s : EngineState K), k ≤ s.hoverCooldown →
      (handleHoverIdStep frames none)^[k] s = { s with hoverCooldown := s.hoverCooldown - k }
  | 0, s, _ => by simp
  | k + 1, s, hk => by
    have hne : s.hoverCooldown ≠ 0 := by omega
    rw [Function.iterate_succ_apply,
      handleHoverIdStep_miss_of_cooldown_ne_zero frames s hne,
      missIter_of_le frames k _ (by simp; omega)]
    simp
    omega

/-! ## C2: hover hysteresis / cooldown -/

/-- C2 (counterexample): with `hoverCooldownFrames = 2`, a pointer that
rests on dot 5 for four ticks still holds the id on the fourth tick,
yet the very first miss tick clears it: the cooldown counter was
armed only when the hovered id changed and has already decayed to
zero, so no post-miss hold happens, contradicting the claim that the
id is held for the configured number of cooldown ticks in every hover
sequence. -/
theorem hoverCooldown_counterexample :
    (runHoverIdSteps (K := ℚ) 2 [some 5, some 5, some 5, some 5]
      ⟨[], [], false, none, 0⟩).hoveredInstanceId = some 5 ∧
    (runHoverIdSteps (K := ℚ) 2 [some 5, some 5, some 5, some 5, none]
      ⟨[], [], false, none, 0⟩).hoveredInstanceId = none :=
  ⟨rfl, rfl⟩

/-- C2 (amended): the cooldown counter is armed with
`hoverCooldownFrames` only when the hovered id changes and is
decremented on every tick, hit or miss.  Consequently a hit on the
already-held id merely decrements the counter, and after the ray
stops hitting, the id survives exactly the ticks remaining on the
counter at the miss and is cleared on the next miss tick after the
counter reaches zero. -/
theorem hoverCooldown_hold_semantics {K : Type} (frames : Nat)
    (s : EngineState K) (id : Nat) :
    (s.hoveredInstanceId ≠ some id →
      handleHoverIdStep frames (some id) s =
        { s with hoveredInstanceId := some id, hoverCooldown := frames - 1 }) ∧
    (s.hoveredInstanceId = some id →
      handleHoverIdStep frames (some id) s =
        { s with hoverCooldown := s.hoverCooldown - 1 }) ∧
    (s.hoveredInstanceId = some id →
      (∀ k, k ≤ s.hoverCooldown →
        ((handleHoverIdStep frames none)^[k] s).hoveredInstanceId = some id) ∧
      ((handleHoverIdStep frames none)^[s.hoverCooldown + 1] s).hoveredInstanceId = none) := by
  refine ⟨fun h => ?_, fun h => ?_, fun h => ⟨fun k hk => ?_, ?_⟩⟩
  · simp [handleHoverIdStep, h]
  · simp [handleHoverIdStep, h]
  · rw [missIter_of_le frames k s hk]
    exact h
  · rw [Function.iterate_succ_apply', missIter_of_le frames s.hoverCooldown s le_rfl,
      handleHoverIdStep_miss_of_cooldown_zero frames _ (by simp)]

/-- C2 (witness): a state holding id 7 with 2 cooldown ticks left is
cleared by the third consecutive miss tick. -/
theorem hoverCooldown_hold_semantics_witness :
    ((⟨[], [], false, some 7, 2⟩ : EngineState ℚ).hoveredInstanceId = some 7) ∧
    ((handleHoverIdStep (K := ℚ) 3 none)^[2 + 1]
      ⟨[], [], false, some 7, 2⟩).hoveredInstanceId = none :=
  ⟨rfl, ((hoverCooldown_hold_semantics 3 ⟨[], [], false, some 7, 2⟩ 7).2.2 rfl).2⟩

/-! ## Lemmas about the lift-easing tick -/

theorem smoothLiftDotStep_fst_targetLift {K : Type} [LinearOrderedField K]
    (cfg : EngineCfg K) (p : Dot K) :
    ((smoothLiftDotStep cfg p).1).targetLift = p.targetLift * cfg.hoverFalloff := by
  unfold smoothLiftDotStep
  dsimp only
  split <;> rfl

theorem smoothLiftUpdate_of_quiescent {K : Type} [LinearOrderedField K]
    (cfg : EngineCfg K) (s : EngineState K) (h1 : s.liftActive = false)
    (h2 : s.hoveredInstanceId = none) : smoothLiftUpdate cfg s = s := by
  unfold smoothLiftUpdate
  rw [if_pos ⟨h1, h2⟩]

theorem smoothLiftUpdate_hoveredInstanceId {K : Type} [LinearOrderedField K]
    (cfg : EngineCfg K) (s : EngineState K) :
    (smoothLiftUpdate cfg s).hoveredInstanceId = s.hoveredInstanceId := by
  unfold smoothLiftUpdate
  split <;> rfl

theorem smoothIter_hoveredInstanceId {K : Type} [LinearOrderedField K]
    (cfg : EngineCfg K) (s : EngineState K) :
    ∀ k : Nat, ((smoothLiftUpdate cfg)^[k] s).hoveredInstanceId = s.hoveredInstanceId
  | 0 => rfl
  | k + 1 => by
    rw [Function.iterate_succ_apply', smoothLiftUpdate_hoveredInstanceId,
      smoothIter_hoveredInstanceId cfg s k]

theorem active_not_quiescent {K : Type} (s : EngineState K)
    (h : s.liftActive = true ∨ s.hoveredInstanceId ≠ none) :
    ¬(s.liftActive = false ∧ s.hoveredInstanceId = none) := by
  rcases h with h | h
  · intro hc
    rw [h] at hc
    exact Bool.noConfusion hc.1
  · intro hc
    exact h hc.2

theorem smoothLiftUpdate_targetLift_map {K : Type} [LinearOrderedField K]
    (cfg : EngineCfg K) (s : EngineState K)
    (h : ¬(s.liftActive = false ∧ s.hoveredInstanceId = none)) :
    (smoothLiftUpdate cfg s).dots.map (fun p => p.targetLift)
      = s.dots.map (fun p => p.targetLift * cfg.hoverFalloff) := by
  unfold smoothLiftUpdate
  rw [if_neg h]
  dsimp only
  rw [List.map_map, List.map_map]
  exact List.map_congr_left (fun p _ => smoothLiftDotStep_fst_targetLift cfg p)

theorem zipWith_getElem? {α β γ : Type} (f : α → β → γ) :
    ∀ (as : List α) (bs : List β) (i : Nat),
      (List.zipWith f as bs)[i]? = as[i]?.bind (fun a => bs[i]?.map (f a))
  | [], _, _ => by simp
  | _ :: _, [], _ => by simp
  | a :: as, b :: bs, 0 => by simp
  | a :: as, b :: bs, i + 1 => by
    simpa using zipWith_getElem? f as bs i

theorem smoothLiftDotStep_of_small {K : Type} [LinearOrderedField K]
    (cfg : EngineCfg K) (p : Dot K)
    (h : |p.targetLift * cfg.hoverFalloff - p.lift| ≤ cfg.threshold) :
    smoothLiftDotStep cfg p = ({ p with targetLift := p.targetLift * cfg.hoverFalloff }, false) := by
  unfold smoothLiftDotStep
  dsimp only
  rw [if_neg (not_lt.mpr h)]

/-! ## C3: geometric decay of targetLift -/

/-- C3 (counterexample): in a quiescent state (`liftActive = false`,
no held hover id) with a dot whose `targetLift` is `0.5` and falloff
factor `0.5`, one lift-easing tick leaves `targetLift` at `0.5`
instead of multiplying it by the falloff: the early return in
`smoothLiftUpdate` skips the decay, so the decay is not applied on
every tick independent of hover state. -/
theorem targetLift_decay_counterexample :
    ((smoothLiftUpdate (⟨0.5, 0.1, 0.5, 0.3, 1.5, -0.8, -0.8⟩ : EngineCfg ℚ)
      ⟨[⟨0, 0, 0, 0.5, false, -1⟩], [(0, 0, 0)], false, none, 0⟩).dots.map
        (fun p => p.targetLift) = [0.5]) ∧ (0.5 : ℚ) ≠ 0.5 * 0.5 :=
  ⟨rfl, by norm_num⟩

/-- C3 (amended): on every tick at which the engine is active
(`liftActive` true or a hover id held) each dot's `targetLift` is
multiplied by the falloff factor, so after `k` consecutive active
ticks `targetLift_k = targetLift_0 * falloff^k` for every dot — this
covers both hovered ticks and the post-hover relaxation ticks where
only `liftActive` keeps the engine running; but once the engine is
quiescent (`liftActive` false and no held id) the tick returns early
and `targetLift` is frozen, decay included. -/
theorem targetLift_geometric_decay {K : Type} [LinearOrderedField K] :
    (∀ (cfg : EngineCfg K) (s : EngineState K) (k : Nat),
      (∀ m : Nat, m < k →
        ((smoothLiftUpdate cfg)^[m] s).liftActive = true ∨
          ((smoothLiftUpdate cfg)^[m] s).hoveredInstanceId ≠ none) →
        ((smoothLiftUpdate cfg)^[k] s).dots.map (fun p => p.targetLift)
          = s.dots.map (fun p => p.targetLift * cfg.hoverFalloff ^ k)) ∧
    (∀ (cfg : EngineCfg K) (s : EngineState K),
      s.liftActive = false → s.hoveredInstanceId = none →
        smoothLiftUpdate cfg s = s) := by
  constructor
  · intro cfg s k
    induction k with
    | zero => intro _; simp
    | succ k ih =>
      intro hact
      rw [Function.iterate_succ_apply']
      calc (smoothLiftUpdate cfg ((smoothLiftUpdate cfg)^[k] s)).dots.map
            (fun p => p.targetLift)
          = ((smoothLiftUpdate cfg)^[k] s).dots.map
              (fun p => p.targetLift * cfg.hoverFalloff) :=
            smoothLiftUpdate_targetLift_map cfg _
              (active_not_quiescent _ (hact k (Nat.lt_succ_self k)))
        _ = (((smoothLiftUpdate cfg)^[k] s).dots.map (fun p => p.targetLift)).map
              (fun t => t * cfg.hoverFalloff) := by
            rw [List.map_map]
            rfl
        _ = (s.dots.map (fun p => p.targetLift * cfg.hoverFalloff ^ k)).map
              (fun t => t * cfg.hoverFalloff) := by
            rw [ih (fun m hm => hact m (Nat.lt_succ_of_lt hm))]
        _ = s.dots.map (fun p => p.targetLift * cfg.hoverFalloff ^ (k + 1)) := by
            rw [List.map_map]
            exact List.map_congr_left (fun p _ => by dsimp; ring)
  · exact fun cfg s h1 h2 => smoothLiftUpdate_of_quiescent cfg s h1 h2

/-- C3 (witness): a post-hover relaxation tick — `liftActive` true
with no held hover id — at falloff 1/2 halves a dot's targetLift. -/
theorem targetLift_geometric_decay_witness :
    ((⟨[⟨0, 0, 0, 1, false, -1⟩], [(0, 0, 0)], true, none, 0⟩ :
      EngineState ℚ).liftActive = true) ∧
    ((⟨[⟨0, 0, 0, 1, false, -1⟩], [(0, 0, 0)], true, none, 0⟩ :
      EngineState ℚ).hoveredInstanceId = none) ∧
    ((smoothLiftUpdate (⟨0.5, 0.1, 0.5, 0.3, 1.5, -0.8, -0.8⟩ : EngineCfg ℚ))^[1]
      ⟨[⟨0, 0, 0, 1, false, -1⟩], [(0, 0, 0)], true, none, 0⟩).dots.map
        (fun p => p.targetLift)
      = ([⟨0, 0, 0, 1, false, -1⟩] : List (Dot ℚ)).map
          (fun p => p.targetLift * 0.5 ^ 1) :=
  ⟨rfl, rfl, (targetLift_geometric_decay (K := ℚ)).1
    ⟨0.5, 0.1, 0.5, 0.3, 1.5, -0.8, -0.8⟩
    ⟨[⟨0, 0, 0, 1, false, -1⟩], [(0, 0, 0)], true, none, 0⟩ 1
    (fun m hm => by
      have hm0 : m = 0 := by omega
      subst hm0
      exact Or.inl rfl)⟩

/-! ## C10: sub-threshold deltas freeze lift and transform -/

/-- C10: on any lift-easing tick, a dot whose post-decay delta
`|targetLift * falloff - lift|` is at or below the threshold keeps its
`lift` value and its per-instance transform slot exactly as they
were; and once the engine is quiescent every subsequent tick is the
identity, so any residual lift offset persists indefinitely. -/
theorem smallDelta_keeps_lift_and_transform {K : Type} [LinearOrderedField K] :
    (∀ (cfg : EngineCfg K) (s : EngineState K) (i : Nat) (p : Dot K),
      s.dots[i]? = some p →
      |p.targetLift * cfg.hoverFalloff - p.lift| ≤ cfg.threshold →
      (smoothLiftUpdate cfg s).dots[i]?.map (fun q => q.lift) = some p.lift ∧
      (smoothLiftUpdate cfg s).matrices[i]? = s.matrices[i]?) ∧
    (∀ (cfg : EngineCfg K) (s : EngineState K),
      s.liftActive = false → s.hoveredInstanceId = none →
      ∀ k : Nat, (smoothLiftUpdate cfg)^[k] s = s) := by
  constructor
  · intro cfg s i p hp hsmall
    by_cases hq : s.liftActive = false ∧ s.hoveredInstanceId = none
    · rw [smoothLiftUpdate_of_quiescent cfg s hq.1 hq.2]
      exact ⟨by rw [hp]; rfl, rfl⟩
    · unfold smoothLiftUpdate
      rw [if_neg hq]
      dsimp only
      constructor
      · rw [List.getElem?_map, List.getElem?_map, hp]
        simp [smoothLiftDotStep_of_small cfg p hsmall]
      · rw [zipWith_getElem?, List.getElem?_map, hp]
        cases hm : s.matrices[i]? with
        | none => rfl
        | some m => simp [smoothLiftDotStep_of_small cfg p hsmall]
  · intro cfg s h1 h2 k
    induction k with
    | zero => rfl
    | succ k ih =>
      rw [Function.iterate_succ_apply', ih,
        smoothLiftUpdate_of_quiescent cfg s h1 h2]

/-- C10 (witness): a dot with lift 0.1 and targetLift 0.2 at falloff
1/2 has post-decay delta 0, below the threshold 0.05, so its lift and
transform slot are untouched by the tick. -/
theorem smallDelta_keeps_lift_and_transform_witness :
    ((⟨[⟨0, 0, 0.1, 0.2, false, -1⟩], [(0, 0, 0)], true, none, 0⟩ :
        EngineState ℚ).dots[0]? = some ⟨0, 0, 0.1, 0.2, false, -1⟩) ∧
    (|(0.2 : ℚ) * 0.5 - 0.1| ≤ 0.05) ∧
    ((smoothLiftUpdate (⟨0.5, 0.05, 0.5, 0.3, 1.5, -0.8, -0.8⟩ : EngineCfg ℚ)
      ⟨[⟨0, 0, 0.1, 0.2, false, -1⟩], [(0, 0, 0)], true, none, 0⟩).dots[0]?.map
        (fun q => q.lift) = some (0.1 : ℚ)) :=
  ⟨rfl, by norm_num,
    ((smallDelta_keeps_lift_and_transform (K := ℚ)).1
      ⟨0.5, 0.05, 0.5, 0.3, 1.5, -0.8, -0.8⟩
      ⟨[⟨0, 0, 0.1, 0.2, false, -1⟩], [(0, 0, 0)], true, none, 0⟩ 0
      ⟨0, 0, 0.1, 0.2, false, -1⟩ rfl (by norm_num)).1⟩

/-! ## C9: lift and targetLift stay non-negative -/

theorem snd_mem_of_mem_enumFrom {α : Type} :
    ∀ (n : Nat) (l : List α) (x : Nat × α), x ∈ List.enumFrom n l → x.2 ∈ l
  | _, [], _, h => by simp at h
  | n, a :: t, x, h => by
    rcases List.mem_cons.mp h with h1 | h2
    · subst h1
      exact List.mem_cons_self a t
    · exact List.mem_cons_of_mem a (snd_mem_of_mem_enumFrom (n + 1) t x h2)

theorem smoothLiftDotStep_nonneg {K : Type} [LinearOrderedField K]
    (cfg : EngineCfg K) (q : Dot K) (hf : 0 ≤ cfg.hoverFalloff)
    (he0 : 0 ≤ cfg.easing) (he1 : cfg.easing ≤ 1)
    (hq : 0 ≤ q.lift ∧ 0 ≤ q.targetLift) :
    0 ≤ ((smoothLiftDotStep cfg q).1).lift ∧
    0 ≤ ((smoothLiftDotStep cfg q).1).targetLift := by
  have ht : 0 ≤ q.targetLift * cfg.hoverFalloff := mul_nonneg hq.2 hf
  unfold smoothLiftDotStep
  dsimp only
  split
  · refine ⟨?_, ht⟩
    dsimp only
    nlinarith [mul_nonneg hq.1 (sub_nonneg.mpr he1), mul_nonneg ht he0]
  · exact ⟨hq.1, ht⟩

/-- C9: all the mutations the engine performs on lift state preserve
non-negativity: freshly built dots carry zero lift; the bind pass only
writes the hotspot back-reference; the hover influence update raises
`targetLift` to a max with a product of `exp(...) >= 0` and a
non-negative `maxLift`; and the easing tick (falloff in `[0,1]`,
easing in `[0,1]`) moves `lift` to a convex-style combination of two
non-negative values and scales `targetLift` by the non-negative
falloff. -/
theorem lift_fields_nonneg {K : Type} [LinearOrderedField K] :
    (∀ x y : K, 0 ≤ (initialDotRecord x y).lift ∧ 0 ≤ (initialDotRecord x y).targetLift) ∧
    (∀ (dots : List (Dot K)) (bi : Nat) (hi : Int),
      (∀ q ∈ dots, 0 ≤ q.lift ∧ 0 ≤ q.targetLift) →
      ∀ p ∈ markHotspotDot dots bi hi, 0 ≤ p.lift ∧ 0 ≤ p.targetLift) ∧
    (∀ (spacing radius maxLift : ℝ) (center p : Dot ℝ),
      0 ≤ maxLift → 0 ≤ p.lift → 0 ≤ p.targetLift →
      0 ≤ (applyHoverInfluence spacing radius maxLift center p).lift ∧
      0 ≤ (applyHoverInfluence spacing radius maxLift center p).targetLift) ∧
    (∀ (cfg : EngineCfg K) (s : EngineState K),
      0 ≤ cfg.hoverFalloff → cfg.hoverFalloff ≤ 1 →
      0 ≤ cfg.easing → cfg.easing ≤ 1 →
      (∀ q ∈ s.dots, 0 ≤ q.lift ∧ 0 ≤ q.targetLift) →
      ∀ p ∈ (smoothLiftUpdate cfg s).dots, 0 ≤ p.lift ∧ 0 ≤ p.targetLift) := by
  refine ⟨fun x y => ⟨le_refl 0, le_refl 0⟩, ?_, ?_, ?_⟩
  · intro dots bi hi hall p hp
    unfold markHotspotDot at hp
    rcases List.mem_map.mp hp with ⟨jp, hjp, rfl⟩
    have hmem : jp.2 ∈ dots := snd_mem_of_mem_enumFrom 0 dots jp hjp
    split
    · exact hall jp.2 hmem
    · exact hall jp.2 hmem
  · intro spacing radius maxLift center p hm hl ht
    unfold applyHoverInfluence
    dsimp only
    split
    · exact ⟨hl, le_trans ht (le_max_left _ _)⟩
    · exact ⟨hl, ht⟩
  · intro cfg s hf hf1 he0 he1 hall p hp
    by_cases hq : s.liftActive = false ∧ s.hoveredInstanceId = none
    · rw [smoothLiftUpdate_of_quiescent cfg s hq.1 hq.2] at hp
      exact hall p hp
    · unfold smoothLiftUpdate at hp
      rw [if_neg hq] at hp
      dsimp only at hp
      rw [List.map_map, List.mem_map] at hp
      rcases hp with ⟨q, hqmem, rfl⟩
      exact smoothLiftDotStep_nonneg cfg q hf he0 he1 (hall q hqmem)

/-- C9 (witness): the hover influence at the hovered dot itself and
one easing tick on a dot with delta above the threshold both keep
lift state non-negative at concrete inputs. -/
theorem lift_fields_nonneg_witness :
    (0 ≤ (applyHoverInfluence 1 1 1 ⟨0, 0, 0, 0, false, -1⟩
        ⟨0, 0, 0, 0, false, -1⟩).lift ∧
      0 ≤ (applyHoverInfluence 1 1 1 ⟨0, 0, 0, 0, false, -1⟩
        ⟨0, 0, 0, 0, false, -1⟩).targetLift) ∧
    (0 ≤ (⟨0, 0, 0.1, 0.2, false, -1⟩ : Dot ℚ).lift ∧
      0 ≤ (⟨0, 0, 0.1, 0.2, false, -1⟩ : Dot ℚ).targetLift) :=
  ⟨(lift_fields_nonneg (K := ℝ)).2.2.1 1 1 1 ⟨0, 0, 0, 0, false, -1⟩
      ⟨0, 0, 0, 0, false, -1⟩ (by norm_num) (by norm_num) (by norm_num),
    (lift_fields_nonneg (K := ℚ)).2.2.2
      ⟨0.5, 0.1, 0.5, 0.3, 1.5, -0.8, -0.8⟩
      ⟨[⟨0, 0, 0.1, 0.2, false, -1⟩], [(0, 0, 0)], false, none, 0⟩
      (by norm_num) (by norm_num) (by norm_num) (by norm_num)
      (by intro q hq
          cases hq with
          | head => exact ⟨by norm_num, by norm_num⟩
          | tail _ h => cases h)
      ⟨0, 0, 0.1, 0.2, false, -1⟩ (List.mem_singleton.mpr rfl)⟩

/-! ## C4: hover influence radius semantics -/

/-- C4 (counterexample): a dot at planar distance exactly `1.4 * r`
from the hovered center (here `r = 1`, `spacing = 1`, dot at
`x = 1.4`) is left untouched by the influence update (strict `<` in
the code), while the claim's formula would raise its `targetLift`
from 0 to the positive value `max 0 (exp(-(1.4/1)^2) * 1)`. -/
theorem hover_boundary_counterexample :
    (applyHoverInfluence 1 1 1 ⟨0, 0, 0, 0, false, -1⟩
      ⟨1.4, 0, 0, 0, false, -1⟩).targetLift = 0 ∧
    max (0 : ℝ) (Real.exp (-((1.4 / 1) * (1.4 / 1))) * 1) ≠ 0 := by
  constructor
  · unfold applyHoverInfluence
    dsimp only
    rw [if_neg (by norm_num [hoverPlanarDistSq])]
  · exact ne_of_gt (lt_max_iff.mpr (Or.inr (by positivity)))

/-- C4 (amended): for a hover event with center `c`, radius `r` and
`maxLift = m`, every dot at squared scaled planar distance strictly
below `(1.4 r)^2` gets `targetLift := max(targetLift,
m * exp(-(d/r)^2))`; the hovered dot itself (distance 0, `r > 0`) gets
exactly `m` when its previous `targetLift` was at most `m`; and every
dot at squared distance at or beyond `(1.4 r)^2` is left entirely
unaffected by the event. -/
theorem hover_influence_radius_semantics (spacing radius maxLift : ℝ)
    (center p : Dot ℝ) :
    (hoverPlanarDistSq spacing center p < (radius * 1.4) * (radius * 1.4) →
      applyHoverInfluence spacing radius maxLift center p =
        { p with
            targetLift := max p.targetLift
                            (Real.exp
                              (-((Real.sqrt (hoverPlanarDistSq spacing center p) / radius) *
                                  (Real.sqrt (hoverPlanarDistSq spacing center p) / radius))) *
                              maxLift) }) ∧
    ((radius * 1.4) * (radius * 1.4) ≤ hoverPlanarDistSq spacing center p →
      applyHoverInfluence spacing radius maxLift center p = p) ∧
    (p.x = center.x → p.y = center.y → 0 < radius → p.targetLift ≤ maxLift →
      (applyHoverInfluence spacing radius maxLift center p).targetLift = maxLift) := by
  refine ⟨fun h => ?_, fun h => ?_, fun hx hy hr hm => ?_⟩
  · unfold applyHoverInfluence
    dsimp only
    rw [if_pos h]
    simp [div_eq_mul_inv, one_div]
  · unfold applyHoverInfluence
    dsimp only
    rw [if_neg (not_lt.mpr h)]
  · have hd : hoverPlanarDistSq spacing center p = 0 := by
      unfold hoverPlanarDistSq
      rw [hx, hy]
      ring
    unfold applyHoverInfluence
    dsimp only
    rw [if_pos (by rw [hd]; nlinarith)]
    dsimp only
    rw [hd, Real.sqrt_zero, zero_mul, zero_mul, neg_zero, Real.exp_zero, one_mul]
    exact max_eq_right hm

/-- C4 (witness): a dot at squared distance 4 from the center with
`r = 1` lies beyond `(1.4)^2 = 1.96` and is unaffected; the hovered
dot itself, with previous targetLift 0.3 and maxLift 1, ends at
exactly 1. -/
theorem hover_influence_radius_semantics_witness :
    (applyHoverInfluence 1 1 1 ⟨0, 0, 0, 0, false, -1⟩ ⟨2, 0, 5, 7, false, -1⟩ =
      ⟨2, 0, 5, 7, false, -1⟩) ∧
    (applyHoverInfluence 1 1 1 ⟨0, 0, 0, 0.3, false, -1⟩
      ⟨0, 0, 0, 0.3, false, -1⟩).targetLift = 1 :=
  ⟨(hover_influence_radius_semantics 1 1 1 ⟨0, 0, 0, 0, false, -1⟩
      ⟨2, 0, 5, 7, false, -1⟩).2.1 (by norm_num [hoverPlanarDistSq]),
    (hover_influence_radius_semantics 1 1 1 ⟨0, 0, 0, 0.3, false, -1⟩
      ⟨0, 0, 0, 0.3, false, -1⟩).2.2 rfl rfl (by norm_num) (by norm_num)⟩

/-! ## C5: sequential arc point count -/

theorem sampleLegPoints_length (a b : ℝ × ℝ × ℝ) (arcHeight : ℝ)
    (segments start : Nat) :
    (sampleLegPoints a b arcHeight segments start).length = segments + 1 - start := by
  unfold sampleLegPoints
  rw [List.length_map, List.length_range]

theorem segmentsOf_pos (segmentsCfg : ℚ) : 1 ≤ segmentsOf segmentsCfg := by
  unfold segmentsOf
  have h : (1 : ℤ) ≤ max 1 ⌊segmentsCfg⌋ := le_max_left 1 _
  omega

/-- C5: for `N >= 2` hotspot positions and effective segment count
`S = max(1, floor(segments))`, the sequential chain's sampled point
list has exactly `(S+1) + (N-2)*S` points: the first leg samples
`t`-indices `0..S`, every later leg samples `1..S`. -/
theorem sequential_arc_point_count (positions : List (ℝ × ℝ × ℝ))
    (arcHeight : ℝ) (segmentsCfg : ℚ) (hN : 2 ≤ positions.length) :
    (collectHotspotArcPoints positions arcHeight segmentsCfg).length =
      (segmentsOf segmentsCfg + 1) +
        (positions.length - 2) * segmentsOf segmentsCfg := by
  have hS := segmentsOf_pos segmentsCfg
  obtain ⟨m, hm⟩ : ∃ m, positions.length - 1 = m + 1 :=
    ⟨positions.length - 2, by omega⟩
  have hm2 : positions.length - 2 = m := by omega
  unfold collectHotspotArcPoints
  dsimp only
  rw [List.length_flatMap, hm, List.range_succ_eq_map, List.map_cons,
    List.map_map, List.sum_cons]
  simp only [Function.comp_apply, Function.comp_def, sampleLegPoints_length,
    Nat.succ_eq_add_one, Nat.sub_zero]
  simp only [if_true, Nat.sub_zero]
  have hrest : (List.range m).map
      (fun j => segmentsOf segmentsCfg + 1 - if j + 1 = 0 then 0 else 1)
      = (List.range m).map (fun _ => segmentsOf segmentsCfg) := by
    refine List.map_congr_left (fun j _ => ?_)
    rw [if_neg (Nat.succ_ne_zero j)]
    omega
  rw [hrest, List.map_const', List.sum_replicate, smul_eq_mul, hm2,
    List.length_range]

/-- C5 (witness): three collinear positions with `segments = 2` give
`(2+1) + 1*2 = 5` sampled points. -/
theorem sequential_arc_point_count_witness :
    2 ≤ ([((0 : ℝ), ((0 : ℝ), (0 : ℝ))), (1, (0, 0)), (2, (0, 0))]).length ∧
    (collectHotspotArcPoints [((0 : ℝ), ((0 : ℝ), (0 : ℝ))), (1, (0, 0)), (2, (0, 0))]
        0 2).length =
      (segmentsOf 2 + 1) +
        (([((0 : ℝ), ((0 : ℝ), (0 : ℝ))), (1, (0, 0)), (2, (0, 0))]).length - 2) *
          segmentsOf 2 :=
  ⟨by norm_num,
    sequential_arc_point_count [((0 : ℝ), ((0 : ℝ), (0 : ℝ))), (1, (0, 0)), (2, (0, 0))]
      0 2 (by norm_num)⟩

/-! ## C6: assembled marker height vs requested height -/

/-- C6 (counterexample): the crystal marker with the default preset at
requested height `0.1` (at or above the `0.08` construction hard
floor) assembles to `0.064 + 0.04 = 0.104`, not `0.1`: the tip's
`0.04` minimum clamp engages and inflates the total. -/
theorem assembled_height_counterexample :
    (0.08 : ℚ) ≤ 0.1 ∧ crystalTotalHeight 0.1 ⟨none, none, none⟩ ≠ 0.1 := by
  have hr : crystalBodyRatioClamped ⟨none, none, none⟩ = 0.64 := by
    unfold crystalBodyRatioClamped
    rw [Option.getD_none, min_eq_right (by norm_num), max_eq_right (by norm_num)]
  have hb : crystalBodyHeight 0.1 ⟨none, none, none⟩ = 0.064 := by
    unfold crystalBodyHeight
    rw [hr, max_eq_right (by norm_num)]
    norm_num
  have ht : crystalTipHeight 0.1 ⟨none, none, none⟩ = 0.04 := by
    unfold crystalTipHeight
    rw [hb, max_eq_left (by norm_num)]
  refine ⟨by norm_num, ?_⟩
  unfold crystalTotalHeight
  rw [hb, ht]
  norm_num

/-- C6 (amended): each marker's assembled height equals the requested
height exactly whenever no stacked part's `0.04` minimum-height clamp
engages: for the crystal this needs `0.04 <= h * bodyRatio` and
`0.04 <= h * (1 - bodyRatio)`; for the beacon `0.04 <= h * tier1Ratio`,
`0.04 <= h * tier2Ratio` and `0.04 <= h * (1 - tier1Ratio - tier2Ratio)`
(ratios after their clamps); for the domed cylinder the construction
hard floor `0.08 <= h` alone suffices. -/
theorem assembled_height_eq_requested :
    (∀ (hgt : ℚ) (pr : CrystalPreset),
      0.04 ≤ hgt * crystalBodyRatioClamped pr →
      0.04 ≤ hgt * (1 - crystalBodyRatioClamped pr) →
      crystalTotalHeight hgt pr = hgt) ∧
    (∀ (hgt : ℚ) (pr : BeaconPreset),
      0.04 ≤ hgt * beaconTier1RatioClamped pr →
      0.04 ≤ hgt * beaconTier2RatioClamped pr →
      0.04 ≤ hgt * (1 - beaconTier1RatioClamped pr - beaconTier2RatioClamped pr) →
      beaconTotalHeight hgt pr = hgt) ∧
    (∀ (topRadius hgt ratio : ℚ), 0.08 ≤ hgt →
      domedCylinderTotalHeight topRadius hgt ratio = hgt) := by
  refine ⟨fun hgt pr h1 h2 => ?_, fun hgt pr h1 h2 h3 => ?_, fun tR hgt r h08 => ?_⟩
  · have hb : crystalBodyHeight hgt pr = hgt * crystalBodyRatioClamped pr :=
      max_eq_right h1
    have htip : crystalTipHeight hgt pr = hgt - crystalBodyHeight hgt pr := by
      unfold crystalTipHeight
      refine max_eq_right ?_
      rw [hb]
      nlinarith
    unfold crystalTotalHeight
    rw [htip]
    ring
  · have hb1 : beaconTier1Height hgt pr = hgt * beaconTier1RatioClamped pr :=
      max_eq_right h1
    have hb2 : beaconTier2Height hgt pr = hgt * beaconTier2RatioClamped pr :=
      max_eq_right h2
    have htip : beaconTipHeight hgt pr =
        hgt - beaconTier1Height hgt pr - beaconTier2Height hgt pr := by
      unfold beaconTipHeight
      refine max_eq_right ?_
      rw [hb1, hb2]
      nlinarith
    unfold beaconTotalHeight
    rw [htip]
    ring
  · have hdome : domeHeightOf tR hgt r ≤ hgt * 0.45 := min_le_right _ _
    have hcyl : cylinderHeightOf tR hgt r = hgt - domeHeightOf tR hgt r := by
      unfold cylinderHeightOf
      refine max_eq_right ?_
      nlinarith
    unfold domedCylinderTotalHeight
    rw [hcyl]
    ring

/-- C6 (witness): at requested height 1 and default presets, all
three stacked constructions assemble to exactly 1. -/
theorem assembled_height_eq_requested_witness :
    crystalTotalHeight 1 ⟨none, none, none⟩ = 1 ∧
    beaconTotalHeight 1 ⟨none, none, none, none, none⟩ = 1 ∧
    domedCylinderTotalHeight 1 1 0.3 = 1 :=
  ⟨assembled_height_eq_requested.1 1 ⟨none, none, none⟩
      (by norm_num [crystalBodyRatioClamped, min_def, max_def])
      (by norm_num [crystalBodyRatioClamped, min_def, max_def]),
    assembled_height_eq_requested.2.1 1 ⟨none, none, none, none, none⟩
      (by norm_num [beaconTier1RatioClamped, min_def, max_def])
      (by norm_num [beaconTier2RatioClamped, min_def, max_def])
      (by norm_num [beaconTier1RatioClamped, beaconTier2RatioClamped, min_def, max_def]),
    assembled_height_eq_requested.2.2 1 1 0.3 (by norm_num)⟩

/-! ## C7: dome ratio clamp and 45 percent cap -/

/-- C7: for every combination of `topRadius`, `height` and
`domeHeightRatio`, the clamped ratio lies in `[0.08, 0.70]` and the
resulting dome height never exceeds 45 percent of the requested
height. -/
theorem domeRatio_clamped_and_capped (topRadius hgt ratio : ℚ) :
    0.08 ≤ clampDomeRatio ratio ∧ clampDomeRatio ratio ≤ 0.7 ∧
    domeHeightOf topRadius hgt ratio ≤ 0.45 * hgt := by
  refine ⟨le_max_left _ _, ?_, ?_⟩
  · exact max_le (by norm_num) (min_le_right _ _)
  · calc domeHeightOf topRadius hgt ratio ≤ hgt * 0.45 := min_le_right _ _
      _ = 0.45 * hgt := mul_comm _ _

/-! ## C8: manual connection pair resolution -/

theorem foldl_push_filterMap (data : List HotspotId) (base : LineStyle) :
    ∀ (l : List ConnectionPair) (acc : List PairLineEntry),
      l.foldl (pushPairLine data base) acc
        = acc ++ l.filterMap (buildPairLine data base)
  | [], acc => by simp
  | x :: t, acc => by
    cases hf : buildPairLine data base x with
    | none =>
      simp only [List.foldl_cons, List.filterMap_cons, hf, pushPairLine]
      exact foldl_push_filterMap data base t acc
    | some e =>
      simp only [List.foldl_cons, List.filterMap_cons, hf, pushPairLine]
      rw [foldl_push_filterMap data base t (acc ++ [e])]
      simp

/-- C8: endpoint ids are resolved case-insensitively (the lookup
depends only on the lower-cased needle); a pair with either endpoint
unresolved (negative index) is silently dropped, and exactly the
fully resolved pairs produce line entries; each produced entry's
style takes the pair's value where present and the base value
otherwise; the whole pass is the filterMap of the per-pair
resolution over the configured list. -/
theorem pair_connection_resolution (data : List HotspotId) (base : LineStyle)
    (pair : ConnectionPair) :
    (∀ s t : String, s ≠ "" → t ≠ "" → jsToLowerCase s = jsToLowerCase t →
      findHotspotIndexById data (some s) = findHotspotIndexById data (some t)) ∧
    ((findHotspotIndexById data pair.fromId < 0 ∨
        findHotspotIndexById data pair.toId < 0) ↔
      buildPairLine data base pair = none) ∧
    (∀ e : PairLineEntry, buildPairLine data base pair = some e →
      e.cfg = mergedPairStyle base pair ∧
      (∀ c : ℚ, pair.color = some c → e.cfg.color = c) ∧
      (pair.color = none → e.cfg.color = base.color)) ∧
    (∀ pairs : List ConnectionPair,
      buildHotspotPairConnections data base pairs
        = pairs.filterMap (buildPairLine data base)) := by
  refine ⟨fun s t hs ht hst => ?_, ?_, fun e he => ?_, fun pairs => ?_⟩
  · simp only [findHotspotIndexById]
    rw [if_neg hs, if_neg ht]
    simp only [hst]
  · unfold buildPairLine
    dsimp only
    by_cases hc : findHotspotIndexById data pair.fromId < 0 ∨
        findHotspotIndexById data pair.toId < 0
    · rw [if_pos hc]
      simp [hc]
    · rw [if_neg hc]
      simp [hc]
  · unfold buildPairLine at he
    dsimp only at he
    split at he
    · exact absurd he (Option.noConfusion)
    · rw [Option.some_inj] at he
      subst he
      refine ⟨rfl, fun c hc => ?_, fun hc => ?_⟩
      · unfold mergedPairStyle
        rw [hc]
        rfl
      · unfold mergedPairStyle
        rw [hc]
        rfl
  · unfold buildHotspotPairConnections
    exact (foldl_push_filterMap data base pairs []).trans (List.nil_append _)

/-- C8 (witness): over hotspots `alpha` and `beta`, the pair
`(alpha, gamma)` is dropped, and the resolved pair
`(alpha, beta)` with a pair color 5 produces an entry whose color is
5 rather than the base color 1. -/
theorem pair_connection_resolution_witness :
    buildPairLine [⟨"alpha"⟩, ⟨"beta"⟩] ⟨1, 1, 1, 8, 1, 6, 0⟩
      ⟨some "alpha", some "gamma", none, none, none, none, none, none, none⟩ = none ∧
    (⟨0, 1, mergedPairStyle ⟨1, 1, 1, 8, 1, 6, 0⟩
        ⟨some "alpha", some "beta", some 5, none, none, none, none, none, none⟩⟩ :
      PairLineEntry).cfg.color = 5 :=
  ⟨(pair_connection_resolution [⟨"alpha"⟩, ⟨"beta"⟩] ⟨1, 1, 1, 8, 1, 6, 0⟩
      ⟨some "alpha", some "gamma", none, none, none, none, none, none, none⟩).2.1.mp
      (Or.inr (by decide)),
    ((pair_connection_resolution [⟨"alpha"⟩, ⟨"beta"⟩] ⟨1, 1, 1, 8, 1, 6, 0⟩
      ⟨some "alpha", some "beta", some 5, none, none, none, none, none, none⟩).2.2.1
      ⟨0, 1, mergedPairStyle ⟨1, 1, 1, 8, 1, 6, 0⟩
        ⟨some "alpha", some "beta", some 5, none, none, none, none, none, none⟩⟩
      (by rfl)).2.1 5 rfl⟩

/-! ## C1: binding against an empty dot list -/

/-- C1 (counterexample): with an empty dot list and one hotspot, the
bind pass does not skip the hotspot and proceed: the nearest-dot scan
leaves `bestIndex = -1` and `dotPositions[-1].isHotspot = true`
throws, aborting the whole pass (and everything after it in
`buildDotsFromFile`) with a TypeError. -/
theorem empty_dot_bind_counterexample :
    bindHotspotsPass (K := ℚ) 0.55 1 [] [⟨"h1", 10, 20, "global"⟩]
      = Except.error JsError.typeError := rfl

/-- C1 (amended): whenever the dot list is empty and at least one
hotspot is to be bound, the bind pass throws a TypeError on the first
hotspot, so no hotspot is bound and the rest of `buildDotsFromFile`
(including both connection-line builds) never runs; the load
pipeline's promise `catch` merely logs the error, leaving the map
unbuilt. -/
theorem empty_dot_bind_throws {K : Type} [LinearOrderedField K]
    (idlePhaseStep hotspotHeight : K) (hss : List (SourceHotspot K))
    (hne : hss ≠ []) :
    bindHotspotsPass idlePhaseStep hotspotHeight [] hss
      = Except.error JsError.typeError := by
  cases hss with
  | nil => exact absurd rfl hne
  | cons h t => rfl

/-- C1 (witness): two hotspots against an empty dot list make the
bind pass throw. -/
theorem empty_dot_bind_throws_witness :
    bindHotspotsPass (K := ℚ) 0.55 1 []
      [⟨"a", 1, 2, "global"⟩, ⟨"b", 3, 4, "telco"⟩]
      = Except.error JsError.typeError :=
  empty_dot_bind_throws 0.55 1 [⟨"a", 1, 2, "global"⟩, ⟨"b", 3, 4, "telco"⟩]
    (List.cons_ne_nil _ _)

end Ptv
